import Mathlib

/-!
Verification of the retirement-projection engine in `src/projection30_10.py`
(`calculate_taxes`, `calculate_state_pension_income`, `project_pension`).
Python floats are modelled as exact rationals (`ℚ`); ages are `ℕ`.
A tax band is a pair of an optional threshold (`none` models `np.inf`)
and a marginal rate.
-/

set_option maxRecDepth 4000

namespace Projection

/-- A tax band: threshold (`none` = `np.inf`) and marginal rate. -/
abbrev Band := Option ℚ × ℚ

/-- Global assumption `amc` (annual management charge) from the source. -/
def amc : ℚ := 0.01

/-- Global assumption `inflation_rate` (the fixed, assumption-level rate). -/
def assumedInflationRate : ℚ := 0.02

/-- Global assumption `state_pension_age`. -/
def statePensionAge : ℕ := 65

/-- Global assumption `state_pension_income_now` (= 10600.20). -/
def statePensionIncomeNow : ℚ := 10600.20

/-- Global assumption `tax_free_withdrawal_component` (= 0.25). -/
def taxFreeWithdrawalComponent : ℚ := 0.25

/-- `min(income, threshold)` where the threshold may be `np.inf`. -/
def bandCap (income : ℚ) : Option ℚ → ℚ
  | none => income
  | some t => min income t

/-- The loop of `calculate_taxes` (source lines 185-194): `prev` is
`previous_threshold`, with `none` meaning it has become `np.inf` (in which
case the guard `income > previous_threshold` fails and the loop breaks,
contributing nothing). -/
def calcTaxGo (income : ℚ) : Option ℚ → List Band → ℚ
  | _, [] => 0
  | none, _ => 0
  | some prev, (t, r) :: rest =>
    if prev < income then (bandCap income t - prev) * r + calcTaxGo income t rest
    else 0

/-- `calculate_taxes(income, tax_bands)` from the source: walk the bands in
order starting from `previous_threshold = 0`, taxing each slice, breaking as
soon as `income ≤ previous_threshold`. -/
def calculate_taxes (income : ℚ) (bands : List Band) : ℚ :=
  calcTaxGo income (some 0) bands

/-- Modelled from the spec: the slice one band contributes when the per-band
guard `income > previous_threshold` holds (zero otherwise). -/
def bandSlice (income : ℚ) (prev : Option ℚ) (t : Option ℚ) (r : ℚ) : ℚ :=
  match prev with
  | none => 0
  | some p => if p < income then (bandCap income t - p) * r else 0

/-- Modelled from the spec (claim C9): the variant of the tax loop that walks
every band with the same per-band guard but never breaks early. -/
def calcTaxAllGo (income : ℚ) : Option ℚ → List Band → ℚ
  | _, [] => 0
  | prev, (t, r) :: rest => bandSlice income prev t r + calcTaxAllGo income t rest

/-- Modelled from the spec (claim C9): `calculate_taxes` without the early
exit. -/
def calculate_taxes_noexit (income : ℚ) (bands : List Band) : ℚ :=
  calcTaxAllGo income (some 0) bands

/-- Thresholds strictly ascending starting from `p` (the initial
`previous_threshold` is 0); an infinite threshold may only appear last. -/
def ascFrom : ℚ → List Band → Prop
  | _, [] => True
  | p, (some t, _) :: rest => p < t ∧ ascFrom t rest
  | _, (none, _) :: rest => rest = []

/-- Well-formed band list: thresholds strictly ascending above the initial
`previous_threshold = 0`, infinite threshold only last. -/
def bandsAsc (bands : List Band) : Prop := ascFrom 0 bands

/-- All marginal rates non-negative. -/
def ratesNonneg (bands : List Band) : Prop := ∀ b ∈ bands, 0 ≤ b.2

/-- The England band table from the source's `assumptions`. -/
def taxBandsEngland : List Band :=
  [(some 12570, 0), (some 50270, 0.20), (some 125140, 0.40), (none, 0.45)]

/-- `calculate_state_pension_income(current_age)` from the source: compound
`state_pension_income_now` at the assumption-level inflation rate over
`state_pension_age - current_age` years; if that gap is not positive, return
the nominal amount unchanged. -/
def calculate_state_pension_income (current_age : ℕ) : ℚ :=
  if statePensionAge ≤ current_age then statePensionIncomeNow
  else statePensionIncomeNow * (1 + assumedInflationRate) ^ (statePensionAge - current_age)

/-- The withdrawal strategy (a string in the source, restricted by the UI to
exactly these three values). -/
inductive Strategy
  | accumulation
  | decumulationCapitalOnly
  | decumulationIncomeFromCapital
deriving DecidableEq, Repr

/-- The tax-free cash option (a string in the source, restricted by the UI to
exactly these four values). -/
inductive TfcOption
  | noTfc
  | fullTfc
  | partTfc
  | ufpls
deriving DecidableEq, Repr

/-- The parameters of `project_pension` (source lines 210-224).
`tfc_part_amount` is the source's partial-TFC amount parameter. -/
structure ProjectionInput where
  current_age : ℕ
  retirement_age : ℕ
  initial_fund : ℚ
  monthly_contribution : ℚ
  monthly_employer_contribution : ℚ
  investment_growth_rate : ℚ
  salary_growth_rate : ℚ
  inflation_rate : ℚ
  target_income : ℚ
  annual_retirement_income : ℚ
  include_state_pension : Bool
  include_db_pension : Bool
  db_pension_income : ℚ
  db_pension_age : ℕ
  income_start_age : ℕ
  income_end_age : ℕ
  tax_free_cash_option : TfcOption
  tfc_part_amount : ℚ
  ufpls_amount : ℚ
  strategy : Strategy
  immediate_capital_goal : ℚ
  existing_tfc_withdrawals : ℚ
  max_age : ℕ
  tax_bands : List Band
deriving DecidableEq, Repr

/-- The mutable variables carried across loop iterations. -/
structure EngineState where
  uncrystallised : ℚ
  crystallised : ℚ
  annual_contribution : ℚ
  annual_retirement_income_adjusted : ℚ
  max_tax_free_cash_available : ℚ
deriving DecidableEq, Repr

/-- One row of the output (source lines 392-400); `spComponent` is the amount
the state pension contributed to this year's `income` (the `sp_income` that
was added, 0 in years where the passive-income block did not run). -/
structure YearRecord where
  age : ℕ
  uncrystallised : ℚ
  crystallised : ℚ
  totalFund : ℚ
  income : ℚ
  tax : ℚ
  netIncome : ℚ
  shortfall : ℚ
  spComponent : ℚ
deriving DecidableEq, Repr

/-- The income figures a loop iteration records. -/
structure YearOut where
  income : ℚ
  tax : ℚ
  netIncome : ℚ
  shortfall : ℚ
  spComponent : ℚ
deriving DecidableEq, Repr

/-- The net growth factor of source line 259:
`1 + investment_growth_rate - amc - inflation_rate`. -/
def growFactor (inp : ProjectionInput) : ℚ :=
  1 + inp.investment_growth_rate - amc - inp.inflation_rate

/-- Source lines 243-244: for the Decumulation-income strategy with a gap of
at most one year, the retirement age is forced to the current age.  (In
Python a negative `retirement_age - current_age` also satisfies `<= 1`;
truncated `ℕ` subtraction gives 0, which matches.) -/
def effRetirementAge (inp : ProjectionInput) : ℕ :=
  if inp.strategy = .decumulationIncomeFromCapital ∧ inp.retirement_age - inp.current_age ≤ 1
  then inp.current_age else inp.retirement_age

/-- Source line 259: the growth step, multiplying the uncrystallised fund by
the net growth factor and touching nothing else. -/
def growStep (inp : ProjectionInput) (s : EngineState) : EngineState :=
  { s with uncrystallised := s.uncrystallised * growFactor inp }

/-- Source lines 341-345: the state-pension contribution to passive income at
one simulated age (inside the passive-income block). -/
def spIncomeAt (inp : ProjectionInput) (age : ℕ) : ℚ :=
  if inp.include_state_pension ∧ statePensionAge ≤ age then
    calculate_state_pension_income inp.current_age *
      (1 + inp.inflation_rate) ^ (age - statePensionAge)
  else 0

/-- Source lines 348-352: the DB-pension contribution to passive income at
one simulated age. -/
def dbIncomeAt (inp : ProjectionInput) (age : ℕ) : ℚ :=
  if inp.include_db_pension ∧ inp.db_pension_age ≤ age then
    inp.db_pension_income * (1 + inp.inflation_rate) ^ (age - inp.db_pension_age)
  else 0

/-- Total passive income accumulated by source lines 339-352. -/
def passiveIncome (inp : ProjectionInput) (age : ℕ) : ℚ :=
  spIncomeAt inp age + dbIncomeAt inp age

/-- Result of the retirement-age tax-free cash event (source lines 305-334):
the two fund balances together with the locals `tax_free_cash`, `income`,
`taxable_cash` and `tax` the event sets (the last three are only set by the
UFPLS branch; the year's recorded tax is recomputed later either way). -/
structure TfcEv where
  uncrystallised : ℚ
  crystallised : ℚ
  tax_free_cash : ℚ
  income : ℚ
  taxable_cash : ℚ
  tax : ℚ
deriving DecidableEq, Repr

/-- Source lines 305-334: the tax-free cash event at the retirement age under
the Accumulation strategy, acting on the grown balances `u` and `c`. -/
def applyTfcOption (inp : ProjectionInput) (u c : ℚ) : TfcEv :=
  match inp.tax_free_cash_option with
  | .fullTfc =>
    let tfc := u * taxFreeWithdrawalComponent
    let u1 := u - tfc
    { uncrystallised := 0, crystallised := c + u1, tax_free_cash := tfc,
      income := 0, taxable_cash := 0, tax := 0 }
  | .partTfc =>
    let maxTfc := u * taxFreeWithdrawalComponent
    let p := min inp.tfc_part_amount maxTfc
    let u1 := u - p
    let ca := p * 3
    { uncrystallised := u1 - ca, crystallised := c + ca, tax_free_cash := p,
      income := 0, taxable_cash := 0, tax := 0 }
  | .ufpls =>
    let a := min inp.ufpls_amount u
    let u1 := u - a
    let tfc := a * 0.25
    let taxable := a * 0.75
    let income := taxable + tfc
    { uncrystallised := u1, crystallised := c, tax_free_cash := tfc,
      income := income, taxable_cash := taxable,
      tax := calculate_taxes (income - tfc) inp.tax_bands }
  | .noTfc =>
    { uncrystallised := u, crystallised := c, tax_free_cash := 0,
      income := 0, taxable_cash := 0, tax := 0 }

/-- Result of the regular drawdown of source lines 355-379. -/
structure DrawResult where
  uncrystallised : ℚ
  crystallised : ℚ
  income : ℚ
  tax_free_cash : ℚ
deriving DecidableEq, Repr

/-- Source lines 355-379: the regular income drawdown inside the income
window, acting on balances `u`, `c`, the income accumulated so far and the
current `tax_free_cash`. -/
def drawdownStep (inflation_rate : ℚ) (retirement_age age : ℕ)
    (annual_adjusted u c income tfc : ℚ) : DrawResult :=
  let remaining_needed := max 0 (annual_adjusted - income)
  if 0 < u ∧ 0 < remaining_needed then
    let tax_free_draw := remaining_needed * (1 + inflation_rate) ^ (age - retirement_age)
    let withdrawal := min u tax_free_draw
    let u1 := u - withdrawal
    let crystallised_amt := withdrawal * 3
    let u2 := u1 - min u1 crystallised_amt
    { uncrystallised := u2, crystallised := c + crystallised_amt,
      income := income + withdrawal, tax_free_cash := withdrawal }
  else if 0 < c then
    let taxable_amount := remaining_needed * (1 + inflation_rate) ^ (age - retirement_age)
    let withdrawal := min c taxable_amount
    { uncrystallised := u, crystallised := c - withdrawal,
      income := income + withdrawal, tax_free_cash := 0 }
  else
    { uncrystallised := u, crystallised := c, income := income, tax_free_cash := tfc }

/-- Source lines 262-294: the pre-retirement branch of a loop iteration (the
state passed in already carries the grown uncrystallised balance):
contributions under Accumulation, and the first-year immediate-capital block
for the two decumulation strategies. -/
def preStep (inp : ProjectionInput) (s : EngineState) (age : ℕ) : EngineState × YearOut :=
  let u0 := if inp.strategy = .accumulation
            then s.uncrystallised + s.annual_contribution else s.uncrystallised
  let contrib1 := if inp.strategy = .accumulation
                  then s.annual_contribution * (1 + inp.salary_growth_rate)
                  else s.annual_contribution
  if age = inp.current_age ∧ inp.strategy ≠ .accumulation ∧ 0 < inp.immediate_capital_goal then
    match inp.strategy with
    | .decumulationCapitalOnly =>
      let w := min inp.immediate_capital_goal u0
      let tax := calculate_taxes w inp.tax_bands
      ({ s with uncrystallised := u0 - w, annual_contribution := contrib1 },
       { income := w, tax := tax, netIncome := w - tax, shortfall := 0, spComponent := 0 })
    | .decumulationIncomeFromCapital =>
      let w := min inp.immediate_capital_goal s.max_tax_free_cash_available
      ({ uncrystallised := u0 - w * 4, crystallised := s.crystallised + w * 3,
         annual_contribution := contrib1,
         annual_retirement_income_adjusted := s.annual_retirement_income_adjusted,
         max_tax_free_cash_available := s.max_tax_free_cash_available - w },
       { income := w, tax := 0, netIncome := w, shortfall := 0, spComponent := 0 })
    | .accumulation =>
      ({ s with uncrystallised := u0, annual_contribution := contrib1 },
       { income := 0, tax := 0, netIncome := 0, shortfall := 0, spComponent := 0 })
  else
    ({ s with uncrystallised := u0, annual_contribution := contrib1 },
     { income := 0, tax := 0, netIncome := 0, shortfall := 0, spComponent := 0 })

/-- Source lines 305-334 with their guard: the retirement-age tax-free cash
event fires only at the retirement age under Accumulation; otherwise the
balances pass through with `tax_free_cash = 0` (line 256). -/
def tfcEvent (inp : ProjectionInput) (s : EngineState) (age : ℕ) : TfcEv :=
  if age = effRetirementAge inp ∧ inp.strategy = .accumulation then
    applyTfcOption inp s.uncrystallised s.crystallised
  else
    { uncrystallised := s.uncrystallised, crystallised := s.crystallised,
      tax_free_cash := 0, income := 0, taxable_cash := 0, tax := 0 }

/-- Source lines 297-390: the post-retirement branch of a loop iteration
(the state passed in already carries the grown uncrystallised balance). -/
def postStep (inp : ProjectionInput) (s : EngineState) (age : ℕ) : EngineState × YearOut :=
  let ra := effRetirementAge inp
  let adj := if age = ra then inp.annual_retirement_income
             else s.annual_retirement_income_adjusted * (1 + inp.inflation_rate)
  let ev := tfcEvent inp s age
  let income1 :=
    if inp.tax_free_cash_option ≠ .ufpls ∨ ra < age ∨ inp.strategy ≠ .accumulation
    then passiveIncome inp age else ev.income
  let spC :=
    if inp.tax_free_cash_option ≠ .ufpls ∨ ra < age ∨ inp.strategy ≠ .accumulation
    then spIncomeAt inp age else 0
  let d :=
    if inp.income_start_age ≤ age ∧ age ≤ inp.income_end_age then
      drawdownStep inp.inflation_rate ra age adj
        ev.uncrystallised ev.crystallised income1 ev.tax_free_cash
    else
      { uncrystallised := ev.uncrystallised, crystallised := ev.crystallised,
        income := income1, tax_free_cash := ev.tax_free_cash }
  let tax := calculate_taxes (d.income - d.tax_free_cash) inp.tax_bands
  let net := d.income - tax
  ({ uncrystallised := d.uncrystallised, crystallised := d.crystallised,
     annual_contribution := s.annual_contribution,
     annual_retirement_income_adjusted := adj,
     max_tax_free_cash_available := s.max_tax_free_cash_available },
   { income := d.income, tax := tax, netIncome := net,
     shortfall := max 0 (inp.target_income - net), spComponent := spC })

/-- Source lines 260-400: one loop iteration after the growth step of line
259 (the state passed in already carries the grown uncrystallised balance). -/
def yearEvents (inp : ProjectionInput) (s : EngineState) (age : ℕ) : EngineState × YearOut :=
  if age < effRetirementAge inp then preStep inp s age else postStep inp s age

/-- One full loop iteration (source lines 255-400): the growth step of line
259 followed by the rest of the body. -/
def yearCore (inp : ProjectionInput) (s : EngineState) (age : ℕ) : EngineState × YearOut :=
  yearEvents inp (growStep inp s) age

/-- One loop iteration together with the row it appends (source lines
392-400); `totalFund` is computed as the sum of the two final balances. -/
def yearStep (inp : ProjectionInput) (s : EngineState) (age : ℕ) : EngineState × YearRecord :=
  let so := yearCore inp s age
  (so.1,
   { age := age,
     uncrystallised := so.1.uncrystallised, crystallised := so.1.crystallised,
     totalFund := so.1.uncrystallised + so.1.crystallised,
     income := so.2.income, tax := so.2.tax, netIncome := so.2.netIncome,
     shortfall := so.2.shortfall, spComponent := so.2.spComponent })

/-- Initial loop state (source lines 238-253). -/
def initState (inp : ProjectionInput) : EngineState :=
  { uncrystallised := inp.initial_fund, crystallised := 0,
    annual_contribution := (inp.monthly_contribution + inp.monthly_employer_contribution) * 12,
    annual_retirement_income_adjusted := inp.annual_retirement_income,
    max_tax_free_cash_available :=
      max 0 (inp.initial_fund * taxFreeWithdrawalComponent - inp.existing_tfc_withdrawals) }

/-- The loop over `n` consecutive ages starting at `age`. -/
def runFrom (inp : ProjectionInput) : EngineState → ℕ → ℕ → List YearRecord
  | _, _, 0 => []
  | s, age, n + 1 =>
    let sr := yearStep inp s age
    sr.2 :: runFrom inp sr.1 (age + 1) n

/-- `project_pension` from the source: one record per age from `current_age`
to `max_age` inclusive. -/
def project_pension (inp : ProjectionInput) : List YearRecord :=
  runFrom inp (initState inp) inp.current_age (inp.max_age + 1 - inp.current_age)

/-- Scenario-C input (claim C1): Decumulation-income-from-capital with
`currentAge = retirementAge = 65`, `immediateCapitalGoal = 10000`,
`existingTfcWithdrawals = 0`, initial fund 100000, growth 5%, inflation 2%,
no pensions, empty income window, one simulated year. -/
def c1In : ProjectionInput :=
  { current_age := 65, retirement_age := 65, initial_fund := 100000,
    monthly_contribution := 0, monthly_employer_contribution := 0,
    investment_growth_rate := 0.05, salary_growth_rate := 0, inflation_rate := 0.02,
    target_income := 0, annual_retirement_income := 0,
    include_state_pension := false, include_db_pension := false,
    db_pension_income := 0, db_pension_age := 65,
    income_start_age := 100, income_end_age := 0,
    tax_free_cash_option := .noTfc, tfc_part_amount := 0, ufpls_amount := 0,
    strategy := .decumulationIncomeFromCapital, immediate_capital_goal := 10000,
    existing_tfc_withdrawals := 0, max_age := 65, tax_bands := [] }

/-- Input exercising the under-funded tax-free drawdown (claim C2): net
growth factor exactly 1, no contributions, drawdown window starting the year
after retirement, desired income far above the fund. -/
def c2In : ProjectionInput :=
  { current_age := 65, retirement_age := 65, initial_fund := 100,
    monthly_contribution := 0, monthly_employer_contribution := 0,
    investment_growth_rate := 0.03, salary_growth_rate := 0, inflation_rate := 0.02,
    target_income := 0, annual_retirement_income := 200000,
    include_state_pension := false, include_db_pension := false,
    db_pension_income := 0, db_pension_age := 65,
    income_start_age := 66, income_end_age := 80,
    tax_free_cash_option := .noTfc, tfc_part_amount := 0, ufpls_amount := 0,
    strategy := .accumulation, immediate_capital_goal := 0,
    existing_tfc_withdrawals := 0, max_age := 66, tax_bands := [] }

/-- Input exercising the unclamped 4x first-year withdrawal (claim C3):
Decumulation-income-from-capital with a two-year gap to retirement, high
inflation (net growth factor 0.94) and a capital goal equal to the full 25%
tax-free allowance. -/
def c3In : ProjectionInput :=
  { current_age := 63, retirement_age := 65, initial_fund := 1000,
    monthly_contribution := 0, monthly_employer_contribution := 0,
    investment_growth_rate := 0, salary_growth_rate := 0, inflation_rate := 0.05,
    target_income := 0, annual_retirement_income := 0,
    include_state_pension := false, include_db_pension := false,
    db_pension_income := 0, db_pension_age := 65,
    income_start_age := 100, income_end_age := 0,
    tax_free_cash_option := .noTfc, tfc_part_amount := 0, ufpls_amount := 0,
    strategy := .decumulationIncomeFromCapital, immediate_capital_goal := 250,
    existing_tfc_withdrawals := 0, max_age := 63, tax_bands := [] }

/-- Input with Accumulation + UFPLS at retirement age 65, empty income
window, England tax bands (claim C4 witness). -/
def c4In : ProjectionInput :=
  { current_age := 64, retirement_age := 65, initial_fund := 50000,
    monthly_contribution := 0, monthly_employer_contribution := 0,
    investment_growth_rate := 0.03, salary_growth_rate := 0, inflation_rate := 0.02,
    target_income := 0, annual_retirement_income := 0,
    include_state_pension := false, include_db_pension := false,
    db_pension_income := 0, db_pension_age := 65,
    income_start_age := 100, income_end_age := 0,
    tax_free_cash_option := .ufpls, tfc_part_amount := 0, ufpls_amount := 40000,
    strategy := .accumulation, immediate_capital_goal := 0,
    existing_tfc_withdrawals := 0, max_age := 66, tax_bands := taxBandsEngland }

/-- Input with state pension included but ages 60-65 all pre-retirement
(claim C7): at age 65 the claim's formula pays the escalated state pension,
while the engine's passive-income block has not started. -/
def c7In : ProjectionInput :=
  { current_age := 60, retirement_age := 70, initial_fund := 0,
    monthly_contribution := 0, monthly_employer_contribution := 0,
    investment_growth_rate := 0.03, salary_growth_rate := 0, inflation_rate := 0.02,
    target_income := 0, annual_retirement_income := 0,
    include_state_pension := true, include_db_pension := false,
    db_pension_income := 0, db_pension_age := 65,
    income_start_age := 100, income_end_age := 0,
    tax_free_cash_option := .noTfc, tfc_part_amount := 0, ufpls_amount := 0,
    strategy := .accumulation, immediate_capital_goal := 0,
    existing_tfc_withdrawals := 0, max_age := 65, tax_bands := [] }

/-- Decumulation-capital-only input used to witness the growth step on a
quiet pre-retirement age (claim C8). -/
def c8In : ProjectionInput :=
  { current_age := 60, retirement_age := 65, initial_fund := 1000,
    monthly_contribution := 0, monthly_employer_contribution := 0,
    investment_growth_rate := 0.05, salary_growth_rate := 0, inflation_rate := 0.02,
    target_income := 0, annual_retirement_income := 0,
    include_state_pension := false, include_db_pension := false,
    db_pension_income := 0, db_pension_age := 65,
    income_start_age := 100, income_end_age := 0,
    tax_free_cash_option := .noTfc, tfc_part_amount := 0, ufpls_amount := 0,
    strategy := .decumulationCapitalOnly, immediate_capital_goal := 0,
    existing_tfc_withdrawals := 0, max_age := 90, tax_bands := [] }

/-- Accumulation + full tax-free cash at retirement age 65, empty income
window (claim C10 witness). -/
def c10In : ProjectionInput :=
  { current_age := 64, retirement_age := 65, initial_fund := 50000,
    monthly_contribution := 0, monthly_employer_contribution := 0,
    investment_growth_rate := 0.03, salary_growth_rate := 0, inflation_rate := 0.02,
    target_income := 0, annual_retirement_income := 0,
    include_state_pension := false, include_db_pension := false,
    db_pension_income := 0, db_pension_age := 65,
    income_start_age := 100, income_end_age := 0,
    tax_free_cash_option := .fullTfc, tfc_part_amount := 0, ufpls_amount := 0,
    strategy := .accumulation, immediate_capital_goal := 0,
    existing_tfc_withdrawals := 0, max_age := 66, tax_bands := taxBandsEngland }

/-! ## Lemmas about the tax calculator -/

theorem calcTaxGo_none (income : ℚ) (bands : List Band) :
    calcTaxGo income none bands = 0 := by
  cases bands <;> simp [calcTaxGo]

theorem ratesNonneg_tail {b : Band} {rest : List Band} (h : ratesNonneg (b :: rest)) :
    ratesNonneg rest :=
  fun x hx => h x (List.mem_cons_of_mem _ hx)

theorem calcTaxGo_nonneg (income : ℚ) (bands : List Band) :
    ∀ p : ℚ, ascFrom p bands → ratesNonneg bands → 0 ≤ calcTaxGo income (some p) bands := by
  induction bands with
  | nil => intro p _ _; simp [calcTaxGo]
  | cons b rest ih =>
    obtain ⟨t, r⟩ := b
    intro p hasc hr
    have hr0 : 0 ≤ r := hr (t, r) (List.mem_cons_self _ _)
    by_cases hpi : p < income
    · cases t with
      | some t0 =>
        obtain ⟨hpt, hasc2⟩ := hasc
        have hslice : 0 ≤ (bandCap income (some t0) - p) * r := by
          apply mul_nonneg _ hr0
          have h := lt_min hpi hpt
          simp only [bandCap]
          linarith
        have hrec := ih t0 hasc2 (ratesNonneg_tail hr)
        simp only [calcTaxGo, if_pos hpi]
        linarith
      | none =>
        have hslice : 0 ≤ (bandCap income none - p) * r := by
          apply mul_nonneg _ hr0
          simp only [bandCap]
          linarith
        simp only [calcTaxGo, if_pos hpi, calcTaxGo_none]
        linarith
    · simp [calcTaxGo, if_neg hpi]

theorem calcTaxGo_mono {i j : ℚ} (hij : i ≤ j) (bands : List Band) :
    ∀ p : ℚ, ascFrom p bands → ratesNonneg bands →
      calcTaxGo i (some p) bands ≤ calcTaxGo j (some p) bands := by
  induction bands with
  | nil => intro p _ _; simp [calcTaxGo]
  | cons b rest ih =>
    obtain ⟨t, r⟩ := b
    intro p hasc hr
    have hr0 : 0 ≤ r := hr (t, r) (List.mem_cons_self _ _)
    by_cases hpi : p < i
    · have hpj : p < j := lt_of_lt_of_le hpi hij
      cases t with
      | some t0 =>
        obtain ⟨hpt, hasc2⟩ := hasc
        have hslice : (bandCap i (some t0) - p) * r ≤ (bandCap j (some t0) - p) * r := by
          apply mul_le_mul_of_nonneg_right _ hr0
          have : min i t0 ≤ min j t0 := min_le_min hij (le_refl t0)
          simp only [bandCap]
          linarith
        have hrec := ih t0 hasc2 (ratesNonneg_tail hr)
        simp only [calcTaxGo, if_pos hpi, if_pos hpj]
        linarith
      | none =>
        have hslice : (bandCap i none - p) * r ≤ (bandCap j none - p) * r := by
          apply mul_le_mul_of_nonneg_right _ hr0
          simp only [bandCap]
          linarith
        simp only [calcTaxGo, if_pos hpi, if_pos hpj, calcTaxGo_none]
        linarith
    · have hL : calcTaxGo i (some p) ((t, r) :: rest) = 0 := by
        simp [calcTaxGo, if_neg hpi]
      rw [hL]
      exact calcTaxGo_nonneg j ((t, r) :: rest) p hasc hr

theorem bandsAsc_england : bandsAsc taxBandsEngland := by
  norm_num [bandsAsc, ascFrom, taxBandsEngland]

theorem ratesNonneg_england : ratesNonneg taxBandsEngland := by
  intro b hb
  simp only [taxBandsEngland, List.mem_cons, List.not_mem_nil, or_false] at hb
  rcases hb with h | h | h | h <;> subst h <;> norm_num

/-! ## Claim theorems -/

/-- C6: for every band list with strictly ascending thresholds (above the
initial `previous_threshold = 0`, infinite threshold only last) and
non-negative marginal rates, `calculate_taxes` is non-decreasing in the
income over non-negative incomes, and `calculate_taxes 0 bands = 0`. -/
theorem c6_tax_monotone_and_zero (bands : List Band) (i j : ℚ)
    (h1 : bandsAsc bands) (h2 : ratesNonneg bands) (h3 : 0 ≤ i) (h4 : i ≤ j) :
    calculate_taxes i bands ≤ calculate_taxes j bands ∧ calculate_taxes 0 bands = 0 := by
  refine ⟨calcTaxGo_mono h4 bands 0 h1 h2, ?_⟩
  cases bands with
  | nil => simp [calculate_taxes, calcTaxGo]
  | cons b rest =>
    obtain ⟨t, r⟩ := b
    simp [calculate_taxes, calcTaxGo]

/-- Witness for C6 at the England band table with incomes 10000 and 60000. -/
theorem c6_witness :
    bandsAsc taxBandsEngland ∧ ratesNonneg taxBandsEngland ∧ (0 : ℚ) ≤ 10000 ∧
      (10000 : ℚ) ≤ 60000 ∧
      (calculate_taxes 10000 taxBandsEngland ≤ calculate_taxes 60000 taxBandsEngland ∧
        calculate_taxes 0 taxBandsEngland = 0) :=
  ⟨bandsAsc_england, ratesNonneg_england, by norm_num, by norm_num,
    c6_tax_monotone_and_zero taxBandsEngland 10000 60000 bandsAsc_england ratesNonneg_england
      (by norm_num) (by norm_num)⟩

theorem calcTaxAllGo_none (income : ℚ) :
    calcTaxAllGo income none [] = 0 := by
  simp [calcTaxAllGo]

theorem calcTaxAllGo_zero (income : ℚ) (bands : List Band) :
    ∀ p : ℚ, income ≤ p → ascFrom p bands → calcTaxAllGo income (some p) bands = 0 := by
  induction bands with
  | nil => intro p _ _; simp [calcTaxAllGo]
  | cons b rest ih =>
    obtain ⟨t, r⟩ := b
    intro p hip hasc
    have hslice : bandSlice income (some p) t r = 0 := by
      simp [bandSlice, if_neg (not_lt.mpr hip)]
    cases t with
    | some t0 =>
      obtain ⟨hpt, hasc2⟩ := hasc
      simp only [calcTaxAllGo, hslice, zero_add]
      exact ih t0 (le_trans hip (le_of_lt hpt)) hasc2
    | none =>
      subst hasc
      simp only [calcTaxAllGo, hslice, zero_add, calcTaxAllGo_none]

theorem calcTaxAllGo_eq_calcTaxGo (income : ℚ) (bands : List Band) :
    ∀ p : ℚ, ascFrom p bands →
      calcTaxAllGo income (some p) bands = calcTaxGo income (some p) bands := by
  induction bands with
  | nil => intro p _; simp [calcTaxAllGo, calcTaxGo]
  | cons b rest ih =>
    obtain ⟨t, r⟩ := b
    intro p hasc
    by_cases hpi : p < income
    · have hslice : bandSlice income (some p) t r = (bandCap income t - p) * r := by
        simp [bandSlice, if_pos hpi]
      cases t with
      | some t0 =>
        obtain ⟨hpt, hasc2⟩ := hasc
        simp only [calcTaxAllGo, calcTaxGo, hslice, if_pos hpi]
        rw [ih t0 hasc2]
      | none =>
        subst hasc
        simp only [calcTaxAllGo, calcTaxGo, hslice, if_pos hpi, calcTaxAllGo_none,
          calcTaxGo_none]
    · have hslice : bandSlice income (some p) t r = 0 := by
        simp [bandSlice, if_neg hpi]
      have hip : income ≤ p := not_lt.mp hpi
      cases t with
      | some t0 =>
        obtain ⟨hpt, hasc2⟩ := hasc
        simp only [calcTaxAllGo, calcTaxGo, hslice, if_neg hpi, zero_add]
        exact calcTaxAllGo_zero income rest t0 (le_trans hip (le_of_lt hpt)) hasc2
      | none =>
        subst hasc
        simp only [calcTaxAllGo, calcTaxGo, hslice, if_neg hpi, zero_add, calcTaxAllGo_none]

/-- C9: on every non-negative income and every band list with strictly
ascending thresholds, the tax loop with its early exit
(`calculate_taxes`) agrees with the variant that walks every band under the
same per-band guard but never breaks (`calculate_taxes_noexit`): the early
exit is an optimization, not a behavior change. -/
theorem c9_early_exit_equiv (income : ℚ) (bands : List Band)
    (h1 : 0 ≤ income) (h2 : bandsAsc bands) :
    calculate_taxes_noexit income bands = calculate_taxes income bands :=
  calcTaxAllGo_eq_calcTaxGo income bands 0 h2

/-- Witness for C9 at the England band table with income 60000. -/
theorem c9_witness :
    (0 : ℚ) ≤ 60000 ∧ bandsAsc taxBandsEngland ∧
      calculate_taxes_noexit 60000 taxBandsEngland = calculate_taxes 60000 taxBandsEngland :=
  ⟨by norm_num, bandsAsc_england,
    c9_early_exit_equiv 60000 taxBandsEngland (by norm_num) bandsAsc_england⟩

/-- C1: at the Scenario-C input (`currentAge = retirementAge = 65`,
`immediateCapitalGoal = 10000`, `existingTfcWithdrawals = 0`, initial fund
100000) the claim expects a first-year tax-free withdrawal of
`min(10000, 25% of the fund) = 10000`, income 10000, and 30000 moved into
the crystallised fund.  The code instead forces `retirement_age :=
current_age`, so the first age is not pre-retirement and the
immediate-capital block never runs: the first (only) year records income 0,
crystallised fund 0, and an untouched (grown) uncrystallised fund. -/
theorem c1_no_first_year_withdrawal :
    project_pension c1In =
      [{ age := 65, uncrystallised := 102000, crystallised := 0, totalFund := 102000,
         income := 0, tax := 0, netIncome := 0, shortfall := 0, spComponent := 0 }] ∧
      min c1In.immediate_capital_goal (c1In.initial_fund * taxFreeWithdrawalComponent)
        = 10000 := by
  constructor
  · norm_num +decide [project_pension, runFrom, yearStep, yearCore, yearEvents, preStep, postStep, tfcEvent, growStep,
      growFactor, effRetirementAge, initState, applyTfcOption, drawdownStep, passiveIncome,
      spIncomeAt, dbIncomeAt, calculate_taxes, calcTaxGo, calculate_state_pension_income,
      statePensionAge, statePensionIncomeNow, assumedInflationRate, amc,
      taxFreeWithdrawalComponent, c1In, min_def, max_def]
  · norm_num [c1In, taxFreeWithdrawalComponent, min_def]

/-- Every year record is produced by `yearStep`, whose `totalFund` field is
the sum of its two fund fields by construction. -/
theorem yearStep_totalFund (inp : ProjectionInput) (s : EngineState) (age : ℕ) :
    ((yearStep inp s age).2).totalFund =
      ((yearStep inp s age).2).uncrystallised + ((yearStep inp s age).2).crystallised := rfl

theorem runFrom_totalFund (inp : ProjectionInput) :
    ∀ (n : ℕ) (s : EngineState) (age : ℕ), ∀ r ∈ runFrom inp s age n,
      r.totalFund = r.uncrystallised + r.crystallised := by
  intro n
  induction n with
  | zero => intro s age r hr; simp [runFrom] at hr
  | succ n ih =>
    intro s age r hr
    simp only [runFrom, List.mem_cons] at hr
    rcases hr with h | h
    · subst h; exact yearStep_totalFund inp s age
    · exact ih _ _ r h

/-- C2 (amended): for every input and every recorded year,
`totalFund = uncrystallisedFund + crystallisedFund`.  The conservation half
of the original claim is false (see the counterexample): the tax-free
drawdown adds `3 x withdrawal` to the crystallised fund but clamps the
matching subtraction, so a withdrawal from an under-funded uncrystallised
pool increases `totalFund`. -/
theorem c2_totalFund_eq_sum (inp : ProjectionInput) (r : YearRecord)
    (hr : r ∈ project_pension inp) :
    r.totalFund = r.uncrystallised + r.crystallised :=
  runFrom_totalFund inp _ _ _ r hr

/-- Witness for C2 (amended) at the first record of `c2In`. -/
theorem c2_witness :
    ({ age := 65, uncrystallised := 100, crystallised := 0, totalFund := 100,
       income := 0, tax := 0, netIncome := 0, shortfall := 0,
       spComponent := 0 } : YearRecord) ∈ project_pension c2In ∧
      (100 : ℚ) = 100 + 0 := by
  have hmem : ({ age := 65, uncrystallised := 100, crystallised := 0, totalFund := 100,
                 income := 0, tax := 0, netIncome := 0, shortfall := 0,
                 spComponent := 0 } : YearRecord) ∈ project_pension c2In := by
    have hrun : project_pension c2In =
        [{ age := 65, uncrystallised := 100, crystallised := 0, totalFund := 100,
           income := 0, tax := 0, netIncome := 0, shortfall := 0, spComponent := 0 },
         { age := 66, uncrystallised := 0, crystallised := 300, totalFund := 300,
           income := 100, tax := 0, netIncome := 100, shortfall := 0, spComponent := 0 }] := by
      norm_num +decide [project_pension, runFrom, yearStep, yearCore, yearEvents, preStep, postStep, tfcEvent, growStep,
        growFactor, effRetirementAge, initState, applyTfcOption, drawdownStep, passiveIncome,
        spIncomeAt, dbIncomeAt, calculate_taxes, calcTaxGo, calculate_state_pension_income,
        statePensionAge, statePensionIncomeNow, assumedInflationRate, amc,
        taxFreeWithdrawalComponent, c2In, min_def, max_def]
    rw [hrun]
    exact List.mem_cons_self _ _
  exact ⟨hmem, c2_totalFund_eq_sum c2In _ hmem⟩

/-- C2 is false as stated: at `c2In` the net growth factor is exactly 1 and
no contributions are made after retirement, yet `totalFund` rises from 100
at age 65 to 300 at age 66 while the only movement is a recorded withdrawal
of 100 — the under-funded tax-free drawdown at age 66 crystallises
`3 x 100 = 300` while the clamped matching subtraction removes only 100, so
a withdrawal increases `totalFund`. -/
theorem c2_counterexample :
    project_pension c2In =
      [{ age := 65, uncrystallised := 100, crystallised := 0, totalFund := 100,
         income := 0, tax := 0, netIncome := 0, shortfall := 0, spComponent := 0 },
       { age := 66, uncrystallised := 0, crystallised := 300, totalFund := 300,
         income := 100, tax := 0, netIncome := 100, shortfall := 0, spComponent := 0 }] ∧
      growFactor c2In = 1 ∧ (100 : ℚ) + 100 < 300 := by
  refine ⟨?_, by norm_num [growFactor, amc, c2In], by norm_num⟩
  norm_num +decide [project_pension, runFrom, yearStep, yearCore, yearEvents, preStep, postStep, tfcEvent, growStep,
    growFactor, effRetirementAge, initState, applyTfcOption, drawdownStep, passiveIncome,
    spIncomeAt, dbIncomeAt, calculate_taxes, calcTaxGo, calculate_state_pension_income,
    statePensionAge, statePensionIncomeNow, assumedInflationRate, amc,
    taxFreeWithdrawalComponent, c2In, min_def, max_def]

/-- C3 is false as stated: at `c3In` (Decumulation-income-from-capital,
`currentAge = 63`, `retirementAge = 65`, fund 1000, net growth factor 0.94,
`immediateCapitalGoal = 250`) the first-year block withdraws 250 and
subtracts `4 x 250 = 1000` from a grown balance of 940 with no clamp,
leaving the uncrystallised fund at -60 < 0. -/
theorem c3_counterexample :
    project_pension c3In =
      [{ age := 63, uncrystallised := -60, crystallised := 750, totalFund := 690,
         income := 250, tax := 0, netIncome := 250, shortfall := 0, spComponent := 0 }] ∧
      ((-60 : ℚ) < 0) := by
  refine ⟨?_, by norm_num⟩
  norm_num +decide [project_pension, runFrom, yearStep, yearCore, yearEvents, preStep, postStep, tfcEvent, growStep,
    growFactor, effRetirementAge, initState, applyTfcOption, drawdownStep, passiveIncome,
    spIncomeAt, dbIncomeAt, calculate_taxes, calcTaxGo, calculate_state_pension_income,
    statePensionAge, statePensionIncomeNow, assumedInflationRate, amc,
    taxFreeWithdrawalComponent, c3In, min_def, max_def]

/-- The tax-free cash event keeps both balances non-negative (the partial
option needs a non-negative requested amount). -/
theorem applyTfcOption_nonneg (inp : ProjectionInput) (u c : ℚ)
    (hu : 0 ≤ u) (hc : 0 ≤ c) (hptfc : 0 ≤ inp.tfc_part_amount) :
    0 ≤ (applyTfcOption inp u c).uncrystallised ∧
      0 ≤ (applyTfcOption inp u c).crystallised := by
  cases hopt : inp.tax_free_cash_option <;>
    simp only [applyTfcOption, hopt, taxFreeWithdrawalComponent]
  case noTfc => exact ⟨hu, hc⟩
  case fullTfc => constructor <;> nlinarith
  case partTfc =>
    have hp1 : min inp.tfc_part_amount (u * 0.25) ≤ u * 0.25 := min_le_right _ _
    have hp0 : 0 ≤ min inp.tfc_part_amount (u * 0.25) :=
      le_min hptfc (by nlinarith)
    constructor <;> nlinarith
  case ufpls =>
    have h1 : min inp.ufpls_amount u ≤ u := min_le_right _ _
    exact ⟨by linarith, hc⟩

/-- The regular drawdown keeps both balances non-negative. -/
theorem drawdownStep_nonneg (infl : ℚ) (ra age : ℕ) (adj u c income tfc : ℚ)
    (hinfl : 0 ≤ infl) (hu : 0 ≤ u) (hc : 0 ≤ c) :
    0 ≤ (drawdownStep infl ra age adj u c income tfc).uncrystallised ∧
      0 ≤ (drawdownStep infl ra age adj u c income tfc).crystallised := by
  simp only [drawdownStep]
  split_ifs with h1 h2
  · obtain ⟨hu0, hneed⟩ := h1
    have hdraw : 0 ≤ max 0 (adj - income) * (1 + infl) ^ (age - ra) :=
      mul_nonneg (le_max_left 0 _) (pow_nonneg (by linarith) _)
    have hw0 : 0 ≤ min u (max 0 (adj - income) * (1 + infl) ^ (age - ra)) :=
      le_min (le_of_lt hu0) hdraw
    have hwu : min u (max 0 (adj - income) * (1 + infl) ^ (age - ra)) ≤ u :=
      min_le_left _ _
    have hmin2 :
        min (u - min u (max 0 (adj - income) * (1 + infl) ^ (age - ra)))
            (min u (max 0 (adj - income) * (1 + infl) ^ (age - ra)) * 3)
          ≤ u - min u (max 0 (adj - income) * (1 + infl) ^ (age - ra)) :=
      min_le_left _ _
    exact ⟨by dsimp only; linarith, by dsimp only; linarith⟩
  · have hmc : min c (max 0 (adj - income) * (1 + infl) ^ (age - ra)) ≤ c :=
      min_le_left _ _
    exact ⟨by dsimp only; linarith, by dsimp only; linarith⟩
  · exact ⟨hu, hc⟩

theorem decCap_ne_acc :
    (Strategy.decumulationCapitalOnly = Strategy.accumulation) = False := by decide

theorem decInc_ne_acc :
    (Strategy.decumulationIncomeFromCapital = Strategy.accumulation) = False := by decide

/-- The tax-free cash event keeps both balances non-negative. -/
theorem tfcEvent_nonneg (inp : ProjectionInput) (s : EngineState) (age : ℕ)
    (hu : 0 ≤ s.uncrystallised) (hc : 0 ≤ s.crystallised)
    (hptfc : 0 ≤ inp.tfc_part_amount) :
    0 ≤ (tfcEvent inp s age).uncrystallised ∧ 0 ≤ (tfcEvent inp s age).crystallised := by
  unfold tfcEvent
  split_ifs with h
  · exact applyTfcOption_nonneg inp _ _ hu hc hptfc
  · exact ⟨hu, hc⟩

/-- The pre-retirement branch keeps balances and contribution non-negative,
provided the Decumulation-income first-year withdrawal (whose 4x reduction
is not clamped) is not triggered. -/
theorem preStep_nonneg (inp : ProjectionInput) (s : EngineState) (age : ℕ)
    (hsg : 0 ≤ inp.salary_growth_rate)
    (hdec : inp.immediate_capital_goal ≤ 0 ∨ inp.strategy ≠ .decumulationIncomeFromCapital)
    (hu : 0 ≤ s.uncrystallised) (hc : 0 ≤ s.crystallised) (hac : 0 ≤ s.annual_contribution) :
    0 ≤ (preStep inp s age).1.uncrystallised ∧ 0 ≤ (preStep inp s age).1.crystallised ∧
      0 ≤ (preStep inp s age).1.annual_contribution := by
  cases hst : inp.strategy with
  | accumulation =>
    simp only [preStep, hst, eq_self_iff_true, if_true, ne_eq, not_true, false_and,
      and_false, if_false]
    exact ⟨by linarith, hc, mul_nonneg hac (by linarith)⟩
  | decumulationCapitalOnly =>
    simp only [preStep, hst, decCap_ne_acc, if_false, ne_eq, not_false_iff, true_and]
    split_ifs with him
    · have hmw : min inp.immediate_capital_goal s.uncrystallised ≤ s.uncrystallised :=
        min_le_right _ _
      have hx : 0 ≤ s.uncrystallised - min inp.immediate_capital_goal s.uncrystallised := by
        linarith
      exact ⟨hx, hc, hac⟩
    · exact ⟨hu, hc, hac⟩
  | decumulationIncomeFromCapital =>
    simp only [preStep, hst, decInc_ne_acc, if_false, ne_eq, not_false_iff, true_and]
    split_ifs with him
    · rcases hdec with hg0 | hns
      · exact absurd him.2 (not_lt.mpr hg0)
      · exact absurd hst hns
    · exact ⟨hu, hc, hac⟩

/-- The post-retirement branch keeps balances and contribution
non-negative. -/
theorem postStep_nonneg (inp : ProjectionInput) (s : EngineState) (age : ℕ)
    (hinfl : 0 ≤ inp.inflation_rate) (hptfc : 0 ≤ inp.tfc_part_amount)
    (hu : 0 ≤ s.uncrystallised) (hc : 0 ≤ s.crystallised) (hac : 0 ≤ s.annual_contribution) :
    0 ≤ (postStep inp s age).1.uncrystallised ∧ 0 ≤ (postStep inp s age).1.crystallised ∧
      0 ≤ (postStep inp s age).1.annual_contribution := by
  have hev := tfcEvent_nonneg inp s age hu hc hptfc
  simp only [postStep]
  by_cases hwin : inp.income_start_age ≤ age ∧ age ≤ inp.income_end_age
  · rw [if_pos hwin]
    have hd := drawdownStep_nonneg inp.inflation_rate (effRetirementAge inp) age
      (if age = effRetirementAge inp then inp.annual_retirement_income
       else s.annual_retirement_income_adjusted * (1 + inp.inflation_rate))
      (tfcEvent inp s age).uncrystallised (tfcEvent inp s age).crystallised
      (if inp.tax_free_cash_option ≠ .ufpls ∨ effRetirementAge inp < age ∨
          inp.strategy ≠ .accumulation
       then passiveIncome inp age else (tfcEvent inp s age).income)
      (tfcEvent inp s age).tax_free_cash hinfl hev.1 hev.2
    exact ⟨hd.1, hd.2, hac⟩
  · rw [if_neg hwin]
    exact ⟨hev.1, hev.2, hac⟩

/-- One loop iteration after the growth step keeps the balances and the
contribution non-negative, provided the Decumulation-income first-year
withdrawal is not triggered. -/
theorem yearEvents_nonneg (inp : ProjectionInput)
    (hsg : 0 ≤ inp.salary_growth_rate) (hinfl : 0 ≤ inp.inflation_rate)
    (hptfc : 0 ≤ inp.tfc_part_amount)
    (hdec : inp.immediate_capital_goal ≤ 0 ∨ inp.strategy ≠ .decumulationIncomeFromCapital)
    (s : EngineState) (hu : 0 ≤ s.uncrystallised) (hc : 0 ≤ s.crystallised)
    (hac : 0 ≤ s.annual_contribution) (age : ℕ) :
    0 ≤ (yearEvents inp s age).1.uncrystallised ∧
      0 ≤ (yearEvents inp s age).1.crystallised ∧
      0 ≤ (yearEvents inp s age).1.annual_contribution := by
  simp only [yearEvents]
  by_cases hpre : age < effRetirementAge inp
  · rw [if_pos hpre]
    exact preStep_nonneg inp s age hsg hdec hu hc hac
  · rw [if_neg hpre]
    exact postStep_nonneg inp s age hinfl hptfc hu hc hac

/-- One full loop iteration keeps the state non-negative. -/
theorem yearStep_state_nonneg (inp : ProjectionInput)
    (hg : 0 ≤ growFactor inp) (hsg : 0 ≤ inp.salary_growth_rate)
    (hinfl : 0 ≤ inp.inflation_rate) (hptfc : 0 ≤ inp.tfc_part_amount)
    (hdec : inp.immediate_capital_goal ≤ 0 ∨ inp.strategy ≠ .decumulationIncomeFromCapital)
    (s : EngineState) (hu : 0 ≤ s.uncrystallised) (hc : 0 ≤ s.crystallised)
    (hac : 0 ≤ s.annual_contribution) (age : ℕ) :
    0 ≤ (yearStep inp s age).1.uncrystallised ∧
      0 ≤ (yearStep inp s age).1.crystallised ∧
      0 ≤ (yearStep inp s age).1.annual_contribution := by
  have hgrown : 0 ≤ (growStep inp s).uncrystallised := mul_nonneg hu hg
  exact yearEvents_nonneg inp hsg hinfl hptfc hdec (growStep inp s) hgrown hc hac age

theorem runFrom_nonneg (inp : ProjectionInput)
    (hg : 0 ≤ growFactor inp) (hsg : 0 ≤ inp.salary_growth_rate)
    (hinfl : 0 ≤ inp.inflation_rate) (hptfc : 0 ≤ inp.tfc_part_amount)
    (hdec : inp.immediate_capital_goal ≤ 0 ∨ inp.strategy ≠ .decumulationIncomeFromCapital) :
    ∀ (n : ℕ) (s : EngineState) (age : ℕ),
      0 ≤ s.uncrystallised → 0 ≤ s.crystallised → 0 ≤ s.annual_contribution →
      ∀ r ∈ runFrom inp s age n, 0 ≤ r.uncrystallised ∧ 0 ≤ r.crystallised := by
  intro n
  induction n with
  | zero => intro s age _ _ _ r hr; simp [runFrom] at hr
  | succ n ih =>
    intro s age hu hc hac r hr
    have hstep := yearStep_state_nonneg inp hg hsg hinfl hptfc hdec s hu hc hac age
    simp only [runFrom, List.mem_cons] at hr
    rcases hr with h | h
    · subst h
      exact ⟨hstep.1, hstep.2.1⟩
    · exact ih (yearStep inp s age).1 (age + 1) hstep.1 hstep.2.1 hstep.2.2 r h

/-- C3 (amended): with the non-negative inputs the caller guarantees (and a
non-negative net growth factor), every recorded year has
`crystallisedFund ≥ 0` and `uncrystallisedFund ≥ 0`, provided the
Decumulation-income-from-capital first-year withdrawal is not triggered
(`immediateCapitalGoal = 0` or another strategy): that one path subtracts
4x the withdrawal from the uncrystallised fund without a clamp and can
drive it negative (see the counterexample); every other withdrawal and
transfer is clamped. -/
theorem c3_funds_nonneg (inp : ProjectionInput)
    (hg : 0 ≤ growFactor inp) (hsg : 0 ≤ inp.salary_growth_rate)
    (hinfl : 0 ≤ inp.inflation_rate) (hptfc : 0 ≤ inp.tfc_part_amount)
    (hfund : 0 ≤ inp.initial_fund) (hm1 : 0 ≤ inp.monthly_contribution)
    (hm2 : 0 ≤ inp.monthly_employer_contribution)
    (hdec : inp.immediate_capital_goal ≤ 0 ∨ inp.strategy ≠ .decumulationIncomeFromCapital) :
    ∀ r ∈ project_pension inp, 0 ≤ r.uncrystallised ∧ 0 ≤ r.crystallised := by
  intro r hr
  refine runFrom_nonneg inp hg hsg hinfl hptfc hdec _ _ _ hfund (le_refl 0) ?_ r hr
  show 0 ≤ (inp.monthly_contribution + inp.monthly_employer_contribution) * 12
  positivity

/-- Witness for C3 (amended) at the first record of `c2In`. -/
theorem c3_witness :
    0 ≤ growFactor c2In ∧ 0 ≤ c2In.salary_growth_rate ∧ 0 ≤ c2In.inflation_rate ∧
      0 ≤ c2In.tfc_part_amount ∧ 0 ≤ c2In.initial_fund ∧ 0 ≤ c2In.monthly_contribution ∧
      0 ≤ c2In.monthly_employer_contribution ∧
      (c2In.immediate_capital_goal ≤ 0 ∨ c2In.strategy ≠ .decumulationIncomeFromCapital) ∧
      (({ age := 65, uncrystallised := 100, crystallised := 0, totalFund := 100,
          income := 0, tax := 0, netIncome := 0, shortfall := 0,
          spComponent := 0 } : YearRecord) ∈ project_pension c2In) ∧
      ((0 : ℚ) ≤ 100 ∧ (0 : ℚ) ≤ 0) := by
  have hmem : ({ age := 65, uncrystallised := 100, crystallised := 0, totalFund := 100,
                 income := 0, tax := 0, netIncome := 0, shortfall := 0,
                 spComponent := 0 } : YearRecord) ∈ project_pension c2In := by
    have hrun : project_pension c2In =
        [{ age := 65, uncrystallised := 100, crystallised := 0, totalFund := 100,
           income := 0, tax := 0, netIncome := 0, shortfall := 0, spComponent := 0 },
         { age := 66, uncrystallised := 0, crystallised := 300, totalFund := 300,
           income := 100, tax := 0, netIncome := 100, shortfall := 0, spComponent := 0 }] := by
      norm_num +decide [project_pension, runFrom, yearStep, yearCore, yearEvents, preStep,
        postStep, tfcEvent, growStep, growFactor, effRetirementAge, initState, applyTfcOption,
        drawdownStep, passiveIncome, spIncomeAt, dbIncomeAt, calculate_taxes, calcTaxGo,
        calculate_state_pension_income, statePensionAge, statePensionIncomeNow,
        assumedInflationRate, amc, taxFreeWithdrawalComponent, c2In, min_def, max_def]
    rw [hrun]
    exact List.mem_cons_self _ _
  have hdec : c2In.immediate_capital_goal ≤ 0 ∨
      c2In.strategy ≠ Strategy.decumulationIncomeFromCapital := by
    left; norm_num [c2In]
  refine ⟨by norm_num [growFactor, amc, c2In], by norm_num [c2In], by norm_num [c2In],
    by norm_num [c2In], by norm_num [c2In], by norm_num [c2In], by norm_num [c2In],
    hdec, hmem, ?_⟩
  exact c3_funds_nonneg c2In (by norm_num [growFactor, amc, c2In]) (by norm_num [c2In])
    (by norm_num [c2In]) (by norm_num [c2In]) (by norm_num [c2In]) (by norm_num [c2In])
    (by norm_num [c2In]) hdec _ hmem

theorem preStep_spComponent (inp : ProjectionInput) (s : EngineState) (age : ℕ) :
    ((preStep inp s age).2).spComponent = 0 := by
  unfold preStep
  split_ifs <;> (cases hst : inp.strategy <;> rfl)

theorem postStep_spComponent (inp : ProjectionInput) (s : EngineState) (age : ℕ) :
    ((postStep inp s age).2).spComponent =
      if inp.tax_free_cash_option ≠ .ufpls ∨ effRetirementAge inp < age ∨
          inp.strategy ≠ .accumulation
      then spIncomeAt inp age else 0 := rfl

/-- The state-pension component a year records, independent of the running
state: zero pre-retirement and in the Accumulation-UFPLS retirement year,
the escalated state pension otherwise. -/
theorem yearStep_spComponent (inp : ProjectionInput) (s : EngineState) (age : ℕ) :
    ((yearStep inp s age).2).spComponent =
      if effRetirementAge inp ≤ age ∧
          (inp.tax_free_cash_option ≠ .ufpls ∨ effRetirementAge inp < age ∨
            inp.strategy ≠ .accumulation)
      then spIncomeAt inp age else 0 := by
  have hcore : ((yearStep inp s age).2).spComponent =
      ((yearEvents inp (growStep inp s) age).2).spComponent := rfl
  rw [hcore]
  simp only [yearEvents]
  by_cases hpre : age < effRetirementAge inp
  · rw [if_pos hpre, preStep_spComponent,
      if_neg (fun h => absurd h.1 (not_le.mpr hpre))]
  · have hra : effRetirementAge inp ≤ age := not_lt.mp hpre
    rw [if_neg hpre, postStep_spComponent]
    by_cases hp : inp.tax_free_cash_option ≠ .ufpls ∨ effRetirementAge inp < age ∨
        inp.strategy ≠ .accumulation
    · rw [if_pos hp, if_pos ⟨hra, hp⟩]
    · rw [if_neg hp, if_neg (fun h => hp h.2)]

/-- Every entry of the output list is the record of `yearStep` at the age
`start + index`, for some threaded state. -/
theorem runFrom_get_eq_yearStep (inp : ProjectionInput) :
    ∀ (n : ℕ) (s : EngineState) (a i : ℕ) (h : i < (runFrom inp s a n).length),
      ∃ s2 : EngineState, (runFrom inp s a n).get ⟨i, h⟩ = (yearStep inp s2 (a + i)).2 := by
  intro n
  induction n with
  | zero => intro s a i h; simp [runFrom] at h
  | succ n ih =>
    intro s a i h
    cases i with
    | zero => exact ⟨s, rfl⟩
    | succ i =>
      have hlen : i < (runFrom inp (yearStep inp s a).1 (a + 1) n).length := by
        have h2 := h
        simpa [runFrom] using h2
      obtain ⟨s2, hs2⟩ := ih (yearStep inp s a).1 (a + 1) i hlen
      refine ⟨s2, ?_⟩
      have hget : (runFrom inp s a (n + 1)).get ⟨i + 1, h⟩ =
          (runFrom inp (yearStep inp s a).1 (a + 1) n).get ⟨i, hlen⟩ := rfl
      rw [hget, hs2]
      have harith : a + 1 + i = a + (i + 1) := by omega
      rw [harith]

/-- C7 (amended): the record at index `i` simulates age `currentAge + i`;
its state-pension component is zero below `statePensionAge`, when the state
pension is excluded, at every pre-retirement age, and in the
Accumulation-UFPLS retirement-age year (the passive-income block is
skipped); in every other case it is the retirement-age base amount
compounded at the user inflation rate for `age - statePensionAge` years,
where the base is `statePensionIncomeNow` compounded at the fixed
assumption-level rate for `statePensionAge - currentAge` years when that
gap is positive and the nominal amount otherwise.  The original claim is
false at pre-retirement ages at or above `statePensionAge` (see the
counterexample). -/
theorem c7_sp_component (inp : ProjectionInput) (i : ℕ)
    (h : i < (project_pension inp).length) :
    ((project_pension inp).get ⟨i, h⟩).age = inp.current_age + i ∧
    ((project_pension inp).get ⟨i, h⟩).spComponent =
      (if effRetirementAge inp ≤ inp.current_age + i ∧
          (inp.tax_free_cash_option ≠ .ufpls ∨ effRetirementAge inp < inp.current_age + i ∨
            inp.strategy ≠ .accumulation) ∧
          inp.include_state_pension ∧ statePensionAge ≤ inp.current_age + i
       then calculate_state_pension_income inp.current_age *
            (1 + inp.inflation_rate) ^ (inp.current_age + i - statePensionAge)
       else 0) ∧
    (inp.current_age < statePensionAge →
      calculate_state_pension_income inp.current_age =
        statePensionIncomeNow * (1 + assumedInflationRate) ^ (statePensionAge - inp.current_age)) ∧
    (statePensionAge ≤ inp.current_age →
      calculate_state_pension_income inp.current_age = statePensionIncomeNow) := by
  obtain ⟨s2, hs⟩ := runFrom_get_eq_yearStep inp (inp.max_age + 1 - inp.current_age)
    (initState inp) inp.current_age i h
  have hs2 : (project_pension inp).get ⟨i, h⟩ = (yearStep inp s2 (inp.current_age + i)).2 := hs
  refine ⟨?_, ?_, ?_, ?_⟩
  · rw [hs2]
    rfl
  · rw [hs2, yearStep_spComponent]
    by_cases h1 : effRetirementAge inp ≤ inp.current_age + i ∧
        (inp.tax_free_cash_option ≠ .ufpls ∨ effRetirementAge inp < inp.current_age + i ∨
          inp.strategy ≠ .accumulation)
    · rw [if_pos h1]
      unfold spIncomeAt
      by_cases h2 : inp.include_state_pension ∧ statePensionAge ≤ inp.current_age + i
      · rw [if_pos h2, if_pos ⟨h1.1, h1.2, h2.1, h2.2⟩]
      · rw [if_neg h2, if_neg (fun hh => h2 ⟨hh.2.2.1, hh.2.2.2⟩)]
    · rw [if_neg h1, if_neg (fun hh => h1 ⟨hh.1, hh.2.1⟩)]
  · intro hlt
    unfold calculate_state_pension_income
    rw [if_neg (not_le.mpr hlt)]
  · intro hge
    unfold calculate_state_pension_income
    rw [if_pos hge]

theorem c7_len : 5 < (project_pension c7In).length := by
  norm_num +decide [project_pension, runFrom, yearStep, yearCore, yearEvents, preStep,
    postStep, tfcEvent, growStep, growFactor, effRetirementAge, initState, applyTfcOption,
    drawdownStep, passiveIncome, spIncomeAt, dbIncomeAt, calculate_taxes, calcTaxGo,
    calculate_state_pension_income, statePensionAge, statePensionIncomeNow,
    assumedInflationRate, amc, taxFreeWithdrawalComponent, c7In, min_def, max_def]

/-- C7 is false as stated: at `c7In` (state pension included, `currentAge =
60`, retirement age 70) the simulated age 65 equals `statePensionAge`, so
the claim requires the component `base x (1 + inflation)^0 ≠ 0`; the engine
records 0 because the age is pre-retirement and the passive-income block
never runs there. -/
theorem c7_counterexample :
    ((project_pension c7In).get ⟨5, c7_len⟩).age = 65 ∧
    ((project_pension c7In).get ⟨5, c7_len⟩).spComponent = 0 ∧
    c7In.include_state_pension = true ∧ statePensionAge ≤ 65 ∧
    effRetirementAge c7In = 70 ∧
    calculate_state_pension_income c7In.current_age *
      (1 + c7In.inflation_rate) ^ (65 - statePensionAge) ≠ 0 := by
  refine ⟨?_, ?_, rfl, by norm_num [statePensionAge], by norm_num +decide [effRetirementAge, c7In], ?_⟩
  · norm_num +decide [project_pension, runFrom, yearStep, yearCore, yearEvents, preStep,
      postStep, tfcEvent, growStep, growFactor, effRetirementAge, initState, applyTfcOption,
      drawdownStep, passiveIncome, spIncomeAt, dbIncomeAt, calculate_taxes, calcTaxGo,
      calculate_state_pension_income, statePensionAge, statePensionIncomeNow,
      assumedInflationRate, amc, taxFreeWithdrawalComponent, c7In, min_def, max_def]
  · norm_num +decide [project_pension, runFrom, yearStep, yearCore, yearEvents, preStep,
      postStep, tfcEvent, growStep, growFactor, effRetirementAge, initState, applyTfcOption,
      drawdownStep, passiveIncome, spIncomeAt, dbIncomeAt, calculate_taxes, calcTaxGo,
      calculate_state_pension_income, statePensionAge, statePensionIncomeNow,
      assumedInflationRate, amc, taxFreeWithdrawalComponent, c7In, min_def, max_def]
  · norm_num [calculate_state_pension_income, statePensionAge, statePensionIncomeNow,
      assumedInflationRate, c7In]

/-- Witness for C7 (amended) at `c7In`, index 0. -/
theorem c7_witness :
    (0 < (project_pension c7In).length) ∧
    (((project_pension c7In).get ⟨0, lt_of_le_of_lt (Nat.zero_le 5) c7_len⟩).age
        = c7In.current_age + 0 ∧
      ((project_pension c7In).get ⟨0, lt_of_le_of_lt (Nat.zero_le 5) c7_len⟩).spComponent =
        (if effRetirementAge c7In ≤ c7In.current_age + 0 ∧
            (c7In.tax_free_cash_option ≠ .ufpls ∨
              effRetirementAge c7In < c7In.current_age + 0 ∨
              c7In.strategy ≠ .accumulation) ∧
            c7In.include_state_pension ∧ statePensionAge ≤ c7In.current_age + 0
         then calculate_state_pension_income c7In.current_age *
              (1 + c7In.inflation_rate) ^ (c7In.current_age + 0 - statePensionAge)
         else 0) ∧
      (c7In.current_age < statePensionAge →
        calculate_state_pension_income c7In.current_age =
          statePensionIncomeNow *
            (1 + assumedInflationRate) ^ (statePensionAge - c7In.current_age)) ∧
      (statePensionAge ≤ c7In.current_age →
        calculate_state_pension_income c7In.current_age = statePensionIncomeNow)) :=
  ⟨lt_of_le_of_lt (Nat.zero_le 5) c7_len,
    c7_sp_component c7In 0 (lt_of_le_of_lt (Nat.zero_le 5) c7_len)⟩

/-- C5: inside the income window, at most one pool is drawn from.  Whenever
the uncrystallised balance and the remaining need are both positive, the
draw is `min(balance, inflation-escalated need)`, recorded as tax-free
income with the 3x crystallisation transfer, and the crystallised pool only
grows.  The crystallised pool shrinks only when the uncrystallised pool is
exhausted or the need is zero, and then the draw is fully taxable
(`tax_free_cash = 0`) and equal to `min(balance, escalated need)` with the
uncrystallised pool untouched.  The two pools never both shrink in one
age. -/
theorem c5_drawdown_exclusive (infl : ℚ) (ra age : ℕ) (adj u c income tfc : ℚ)
    (hinfl : 0 ≤ infl) :
    ((0 < u ∧ 0 < max 0 (adj - income)) →
        (drawdownStep infl ra age adj u c income tfc).income =
            income + min u (max 0 (adj - income) * (1 + infl) ^ (age - ra)) ∧
          (drawdownStep infl ra age adj u c income tfc).tax_free_cash =
            min u (max 0 (adj - income) * (1 + infl) ^ (age - ra)) ∧
          (drawdownStep infl ra age adj u c income tfc).crystallised =
            c + min u (max 0 (adj - income) * (1 + infl) ^ (age - ra)) * 3 ∧
          c ≤ (drawdownStep infl ra age adj u c income tfc).crystallised) ∧
      ((drawdownStep infl ra age adj u c income tfc).crystallised < c →
        ¬(0 < u ∧ 0 < max 0 (adj - income)) ∧
          (drawdownStep infl ra age adj u c income tfc).uncrystallised = u ∧
          (drawdownStep infl ra age adj u c income tfc).tax_free_cash = 0 ∧
          (drawdownStep infl ra age adj u c income tfc).income =
            income + min c (max 0 (adj - income) * (1 + infl) ^ (age - ra))) ∧
      ¬((drawdownStep infl ra age adj u c income tfc).uncrystallised < u ∧
        (drawdownStep infl ra age adj u c income tfc).crystallised < c) := by
  simp only [drawdownStep]
  split_ifs with h1 h2
  · obtain ⟨hu0, hneed⟩ := h1
    have hesc : (0 : ℚ) ≤ (1 + infl) ^ (age - ra) := pow_nonneg (by linarith) _
    have hw0 : 0 ≤ min u (max 0 (adj - income) * (1 + infl) ^ (age - ra)) :=
      le_min (le_of_lt hu0) (mul_nonneg (le_max_left 0 _) hesc)
    have hcle : c ≤ c + min u (max 0 (adj - income) * (1 + infl) ^ (age - ra)) * 3 := by
      linarith
    refine ⟨fun _ => ⟨rfl, rfl, rfl, hcle⟩, fun hlt => absurd hlt (not_lt.mpr hcle), ?_⟩
    rintro ⟨-, hcc⟩
    exact absurd hcc (not_lt.mpr hcle)
  · refine ⟨fun hcontra => absurd hcontra h1, fun _ => ⟨h1, rfl, rfl, rfl⟩, ?_⟩
    rintro ⟨huu, -⟩
    exact absurd huu (lt_irrefl u)
  · refine ⟨fun hcontra => absurd hcontra h1, fun hlt => absurd hlt (lt_irrefl c), ?_⟩
    rintro ⟨huu, -⟩
    exact absurd huu (lt_irrefl u)

/-- Witness for C5 at `infl = 0`, `ra = age = 65`, `adj = 10`, `u = 5`,
`c = 2`, `income = 0`, `tfc = 0`. -/
theorem c5_witness :
    (0 : ℚ) ≤ 0 ∧
      (((0 : ℚ) < 5 ∧ (0 : ℚ) < max 0 ((10 : ℚ) - 0)) →
          (drawdownStep 0 65 65 10 5 2 0 0).income =
              0 + min 5 (max 0 ((10 : ℚ) - 0) * (1 + 0) ^ (65 - 65)) ∧
            (drawdownStep 0 65 65 10 5 2 0 0).tax_free_cash =
              min 5 (max 0 ((10 : ℚ) - 0) * (1 + 0) ^ (65 - 65)) ∧
            (drawdownStep 0 65 65 10 5 2 0 0).crystallised =
              2 + min 5 (max 0 ((10 : ℚ) - 0) * (1 + 0) ^ (65 - 65)) * 3 ∧
            (2 : ℚ) ≤ (drawdownStep 0 65 65 10 5 2 0 0).crystallised) ∧
        ((drawdownStep 0 65 65 10 5 2 0 0).crystallised < 2 →
          ¬((0 : ℚ) < 5 ∧ (0 : ℚ) < max 0 ((10 : ℚ) - 0)) ∧
            (drawdownStep 0 65 65 10 5 2 0 0).uncrystallised = 5 ∧
            (drawdownStep 0 65 65 10 5 2 0 0).tax_free_cash = 0 ∧
            (drawdownStep 0 65 65 10 5 2 0 0).income =
              0 + min 2 (max 0 ((10 : ℚ) - 0) * (1 + 0) ^ (65 - 65))) ∧
        ¬((drawdownStep 0 65 65 10 5 2 0 0).uncrystallised < 5 ∧
          (drawdownStep 0 65 65 10 5 2 0 0).crystallised < 2) :=
  ⟨le_refl 0, c5_drawdown_exclusive 0 65 65 10 5 2 0 0 (le_refl 0)⟩

/-- C8: the growth step multiplies the uncrystallised fund by exactly
`1 + investmentGrowthRate - amc - inflationRate` and leaves the crystallised
fund unchanged; `yearCore` is, definitionally, the growth step followed by
the rest of the iteration; and on a quiet pre-retirement age (capital-only
strategy, not the first simulated age, so no contribution and no event
fires) the recorded balances are exactly the grown uncrystallised fund and
the untouched crystallised fund. -/
theorem c8_growth_step (inp : ProjectionInput) (s : EngineState) (age : ℕ)
    (hst : inp.strategy = .decumulationCapitalOnly)
    (hage : age < effRetirementAge inp) (hcur : age ≠ inp.current_age) :
    (growStep inp s).uncrystallised =
        s.uncrystallised * (1 + inp.investment_growth_rate - amc - inp.inflation_rate) ∧
      (growStep inp s).crystallised = s.crystallised ∧
      yearCore inp s age = yearEvents inp (growStep inp s) age ∧
      ((yearStep inp s age).2).uncrystallised =
        s.uncrystallised * (1 + inp.investment_growth_rate - amc - inp.inflation_rate) ∧
      ((yearStep inp s age).2).crystallised = s.crystallised := by
  have hstate : (yearStep inp s age).1 = (preStep inp (growStep inp s) age).1 := by
    show (yearEvents inp (growStep inp s) age).1 = _
    simp only [yearEvents]
    rw [if_pos hage]
  have hpre1 : (preStep inp (growStep inp s) age).1.uncrystallised =
      (growStep inp s).uncrystallised := by
    simp only [preStep, hst, decCap_ne_acc, if_false]
    split_ifs with h
    · exact absurd h.1 hcur
    · rfl
  have hpre2 : (preStep inp (growStep inp s) age).1.crystallised = s.crystallised := by
    simp only [preStep, hst, decCap_ne_acc, if_false]
    split_ifs with h
    · exact absurd h.1 hcur
    · rfl
  refine ⟨rfl, rfl, rfl, ?_, ?_⟩
  · show (yearStep inp s age).1.uncrystallised = _
    rw [hstate, hpre1]
    rfl
  · show (yearStep inp s age).1.crystallised = _
    rw [hstate, hpre2]

/-- Witness for C8 at `c8In`, age 61, state `initState c8In`. -/
theorem c8_witness :
    c8In.strategy = .decumulationCapitalOnly ∧ 61 < effRetirementAge c8In ∧
      (61 : ℕ) ≠ c8In.current_age ∧
      ((growStep c8In (initState c8In)).uncrystallised =
          (initState c8In).uncrystallised *
            (1 + c8In.investment_growth_rate - amc - c8In.inflation_rate) ∧
        (growStep c8In (initState c8In)).crystallised = (initState c8In).crystallised ∧
        yearCore c8In (initState c8In) 61 = yearEvents c8In (growStep c8In (initState c8In)) 61 ∧
        ((yearStep c8In (initState c8In) 61).2).uncrystallised =
          (initState c8In).uncrystallised *
            (1 + c8In.investment_growth_rate - amc - c8In.inflation_rate) ∧
        ((yearStep c8In (initState c8In) 61).2).crystallised = (initState c8In).crystallised) :=
  ⟨rfl, by decide, by decide,
    c8_growth_step c8In (initState c8In) 61 rfl (by decide) (by decide)⟩

/-- C4: a UFPLS event at the retirement age under Accumulation withdraws
`A = min(requested, uncrystallised)`, splits it into a tax-free `0.25 A` and
a taxable `0.75 A`, computes tax on the taxable portion only, removes `A`
from the uncrystallised pool and performs no 3x transfer — the crystallised
pool is unchanged.  At the year level (with the drawdown window not covering
the retirement age, so no further draw is super-imposed on the event), the
recorded income is `A`, the recorded tax is the tax on `0.75 A`, and the
recorded crystallised fund equals the pre-event crystallised fund. -/
theorem c4_ufpls_split (inp : ProjectionInput) (u c : ℚ) (s : EngineState)
    (hopt : inp.tax_free_cash_option = .ufpls) (hacc : inp.strategy = .accumulation)
    (hw : ¬(inp.income_start_age ≤ effRetirementAge inp ∧
            effRetirementAge inp ≤ inp.income_end_age)) :
    ((applyTfcOption inp u c).tax_free_cash = 0.25 * min inp.ufpls_amount u ∧
      (applyTfcOption inp u c).taxable_cash = 0.75 * min inp.ufpls_amount u ∧
      (applyTfcOption inp u c).income = min inp.ufpls_amount u ∧
      (applyTfcOption inp u c).tax =
        calculate_taxes (0.75 * min inp.ufpls_amount u) inp.tax_bands ∧
      (applyTfcOption inp u c).uncrystallised = u - min inp.ufpls_amount u ∧
      (applyTfcOption inp u c).crystallised = c) ∧
    (((yearStep inp s (effRetirementAge inp)).2).crystallised = s.crystallised ∧
      ((yearStep inp s (effRetirementAge inp)).2).income =
        min inp.ufpls_amount (s.uncrystallised * growFactor inp) ∧
      ((yearStep inp s (effRetirementAge inp)).2).tax =
        calculate_taxes (0.75 * min inp.ufpls_amount (s.uncrystallised * growFactor inp))
          inp.tax_bands) := by
  have hcore : yearEvents inp (growStep inp s) (effRetirementAge inp) =
      postStep inp (growStep inp s) (effRetirementAge inp) := by
    simp only [yearEvents]
    rw [if_neg (lt_irrefl _)]
  have hevent : tfcEvent inp (growStep inp s) (effRetirementAge inp) =
      applyTfcOption inp (growStep inp s).uncrystallised (growStep inp s).crystallised := by
    unfold tfcEvent
    rw [if_pos ⟨rfl, hacc⟩]
  have hpc : ¬(inp.tax_free_cash_option ≠ .ufpls ∨
      effRetirementAge inp < effRetirementAge inp ∨ inp.strategy ≠ .accumulation) := by
    rw [hopt, hacc]
    simp
  have hgs : (growStep inp s).uncrystallised = s.uncrystallised * growFactor inp := rfl
  constructor
  · simp only [applyTfcOption, hopt]
    refine ⟨by ring, by ring, by ring, ?_, by trivial, by trivial⟩
    congr 1
    ring
  · refine ⟨?_, ?_, ?_⟩
    · show (yearEvents inp (growStep inp s) (effRetirementAge inp)).1.crystallised = _
      rw [hcore]
      simp only [postStep]
      rw [if_neg hw, hevent]
      simp only [applyTfcOption, hopt]
      rfl
    · show (yearEvents inp (growStep inp s) (effRetirementAge inp)).2.income = _
      rw [hcore]
      simp only [postStep]
      rw [if_neg hw, if_neg hpc, hevent]
      simp only [applyTfcOption, hopt]
      rw [hgs]
      ring
    · show (yearEvents inp (growStep inp s) (effRetirementAge inp)).2.tax = _
      rw [hcore]
      simp only [postStep]
      rw [if_neg hw, if_neg hpc, hevent]
      simp only [applyTfcOption, hopt]
      rw [hgs]
      congr 1
      ring

/-- Witness for C4 at `c4In`, `u = 40000`, `c = 0`, state `initState c4In`. -/
theorem c4_witness :
    c4In.tax_free_cash_option = .ufpls ∧ c4In.strategy = .accumulation ∧
      ¬(c4In.income_start_age ≤ effRetirementAge c4In ∧
        effRetirementAge c4In ≤ c4In.income_end_age) ∧
      (((applyTfcOption c4In 40000 0).tax_free_cash = 0.25 * min c4In.ufpls_amount 40000 ∧
        (applyTfcOption c4In 40000 0).taxable_cash = 0.75 * min c4In.ufpls_amount 40000 ∧
        (applyTfcOption c4In 40000 0).income = min c4In.ufpls_amount 40000 ∧
        (applyTfcOption c4In 40000 0).tax =
          calculate_taxes (0.75 * min c4In.ufpls_amount 40000) c4In.tax_bands ∧
        (applyTfcOption c4In 40000 0).uncrystallised = 40000 - min c4In.ufpls_amount 40000 ∧
        (applyTfcOption c4In 40000 0).crystallised = 0) ∧
      (((yearStep c4In (initState c4In) (effRetirementAge c4In)).2).crystallised =
          (initState c4In).crystallised ∧
        ((yearStep c4In (initState c4In) (effRetirementAge c4In)).2).income =
          min c4In.ufpls_amount ((initState c4In).uncrystallised * growFactor c4In) ∧
        ((yearStep c4In (initState c4In) (effRetirementAge c4In)).2).tax =
          calculate_taxes
            (0.75 * min c4In.ufpls_amount ((initState c4In).uncrystallised * growFactor c4In))
            c4In.tax_bands)) :=
  ⟨rfl, rfl, by decide,
    c4_ufpls_split c4In 40000 0 (initState c4In) rfl rfl (by decide)⟩

/-- C10: in the Accumulation + full tax-free cash retirement year, the 25%
lump sum is never added to the year's income (the recorded income is the
passive income plus whatever left the crystallised pool, never the lump
sum), net income is income minus tax, and when the retirement age lies
outside the income window the recorded income is exactly the passive income
while the tax is computed on `passiveIncome - lumpSum` — the lump sum is
subtracted before tax even though it was never counted as income. -/
theorem c10_full_tfc (inp : ProjectionInput) (s : EngineState)
    (hacc : inp.strategy = .accumulation) (hopt : inp.tax_free_cash_option = .fullTfc) :
    ((yearStep inp s (effRetirementAge inp)).2).netIncome =
        ((yearStep inp s (effRetirementAge inp)).2).income -
          ((yearStep inp s (effRetirementAge inp)).2).tax ∧
      ((yearStep inp s (effRetirementAge inp)).2).income =
        passiveIncome inp (effRetirementAge inp) +
          ((s.crystallised + (s.uncrystallised * growFactor inp -
              s.uncrystallised * growFactor inp * taxFreeWithdrawalComponent)) -
            ((yearStep inp s (effRetirementAge inp)).2).crystallised) ∧
      (¬(inp.income_start_age ≤ effRetirementAge inp ∧
          effRetirementAge inp ≤ inp.income_end_age) →
        ((yearStep inp s (effRetirementAge inp)).2).income =
            passiveIncome inp (effRetirementAge inp) ∧
          ((yearStep inp s (effRetirementAge inp)).2).tax =
            calculate_taxes (passiveIncome inp (effRetirementAge inp) -
              s.uncrystallised * growFactor inp * taxFreeWithdrawalComponent) inp.tax_bands ∧
          ((yearStep inp s (effRetirementAge inp)).2).crystallised =
            s.crystallised + (s.uncrystallised * growFactor inp -
              s.uncrystallised * growFactor inp * taxFreeWithdrawalComponent)) := by
  have hcore : yearEvents inp (growStep inp s) (effRetirementAge inp) =
      postStep inp (growStep inp s) (effRetirementAge inp) := by
    simp only [yearEvents]
    rw [if_neg (lt_irrefl _)]
  have hevent : tfcEvent inp (growStep inp s) (effRetirementAge inp) =
      applyTfcOption inp (growStep inp s).uncrystallised (growStep inp s).crystallised := by
    unfold tfcEvent
    rw [if_pos ⟨rfl, hacc⟩]
  have hpc : inp.tax_free_cash_option ≠ .ufpls ∨
      effRetirementAge inp < effRetirementAge inp ∨ inp.strategy ≠ .accumulation :=
    Or.inl (by rw [hopt]; decide)
  have hgs : (growStep inp s).uncrystallised = s.uncrystallised * growFactor inp := rfl
  have hgc : (growStep inp s).crystallised = s.crystallised := rfl
  refine ⟨?_, ?_, ?_⟩
  · show (yearEvents inp (growStep inp s) (effRetirementAge inp)).2.netIncome =
      (yearEvents inp (growStep inp s) (effRetirementAge inp)).2.income -
        (yearEvents inp (growStep inp s) (effRetirementAge inp)).2.tax
    rw [hcore]
    rfl
  · show (yearEvents inp (growStep inp s) (effRetirementAge inp)).2.income =
      passiveIncome inp (effRetirementAge inp) +
        ((s.crystallised + (s.uncrystallised * growFactor inp -
            s.uncrystallised * growFactor inp * taxFreeWithdrawalComponent)) -
          (yearEvents inp (growStep inp s) (effRetirementAge inp)).1.crystallised)
    rw [hcore]
    simp only [postStep]
    rw [if_pos hpc, hevent]
    simp only [applyTfcOption, hopt]
    rw [hgs, hgc]
    by_cases hw : inp.income_start_age ≤ effRetirementAge inp ∧
        effRetirementAge inp ≤ inp.income_end_age
    · rw [if_pos hw]
      simp only [drawdownStep]
      rw [if_neg (fun h => absurd h.1 (lt_irrefl 0))]
      by_cases hcc : (0 : ℚ) < s.crystallised + (s.uncrystallised * growFactor inp -
          s.uncrystallised * growFactor inp * taxFreeWithdrawalComponent)
      · rw [if_pos hcc]
        ring
      · rw [if_neg hcc]
        ring
    · rw [if_neg hw]
      ring
  · intro hw
    refine ⟨?_, ?_, ?_⟩
    · show (yearEvents inp (growStep inp s) (effRetirementAge inp)).2.income = _
      rw [hcore]
      simp only [postStep]
      rw [if_neg hw, if_pos hpc]
    · show (yearEvents inp (growStep inp s) (effRetirementAge inp)).2.tax = _
      rw [hcore]
      simp only [postStep]
      rw [if_neg hw, if_pos hpc, hevent]
      simp only [applyTfcOption, hopt]
      rw [hgs]
    · show (yearEvents inp (growStep inp s) (effRetirementAge inp)).1.crystallised = _
      rw [hcore]
      simp only [postStep]
      rw [if_neg hw, hevent]
      simp only [applyTfcOption, hopt]
      rw [hgs, hgc]

/-- Witness for C10 at `c10In`, state `initState c10In`. -/
theorem c10_witness :
    c10In.strategy = .accumulation ∧ c10In.tax_free_cash_option = .fullTfc ∧
      (((yearStep c10In (initState c10In) (effRetirementAge c10In)).2).netIncome =
          ((yearStep c10In (initState c10In) (effRetirementAge c10In)).2).income -
            ((yearStep c10In (initState c10In) (effRetirementAge c10In)).2).tax ∧
        ((yearStep c10In (initState c10In) (effRetirementAge c10In)).2).income =
          passiveIncome c10In (effRetirementAge c10In) +
            (((initState c10In).crystallised + ((initState c10In).uncrystallised * growFactor c10In -
                (initState c10In).uncrystallised * growFactor c10In * taxFreeWithdrawalComponent)) -
              ((yearStep c10In (initState c10In) (effRetirementAge c10In)).2).crystallised) ∧
        (¬(c10In.income_start_age ≤ effRetirementAge c10In ∧
            effRetirementAge c10In ≤ c10In.income_end_age) →
          ((yearStep c10In (initState c10In) (effRetirementAge c10In)).2).income =
              passiveIncome c10In (effRetirementAge c10In) ∧
            ((yearStep c10In (initState c10In) (effRetirementAge c10In)).2).tax =
              calculate_taxes (passiveIncome c10In (effRetirementAge c10In) -
                (initState c10In).uncrystallised * growFactor c10In * taxFreeWithdrawalComponent)
                c10In.tax_bands ∧
            ((yearStep c10In (initState c10In) (effRetirementAge c10In)).2).crystallised =
              (initState c10In).crystallised + ((initState c10In).uncrystallised * growFactor c10In -
                (initState c10In).uncrystallised * growFactor c10In * taxFreeWithdrawalComponent))) :=
  ⟨rfl, rfl, c10_full_tfc c10In (initState c10In) rfl rfl⟩

end Projection
